import Mathlib

/-!
Verification of the 3s-connect feed/interaction data layer.

The definitions below are a shallow embedding of the backend controllers
(src/backend/src/controllers/post.controller.js, the comment controller in
src/unnamed/part_010, the user controller in src/unnamed/part_011), the
mongoose schemas (comment and notification schemas in src/unnamed/part_012,
user schema as quoted in the repository tutorial chapter 3), and the mobile
cache hook (src/mobile/hooks/usePost.ts).  Documents are records over Nat
ids, the Mongo store is an explicit state record, and each request handler
is a pure function from state and inputs to a response paired with the new
state.  JavaScript runtime failures (TypeError on a missing member,
mongoose filter and validation rejections) are modelled explicitly: an
uncaught throw inside an express-async-handler wrapped handler surfaces as
a 500 response and performs no further writes.
-/

namespace SC

/-- MongoDB document identifier. -/
abbrev ObjId := Nat

/-- External (Clerk) identity key. -/
abbrev ClerkId := String

/-- User document. Schema (tutorial chapter 3, models/user.model.js): clerkID,
email and username unique, name and picture fields, followers and following
as arrays of User ids. -/
structure User where
  _id : ObjId
  clerkID : ClerkId
  email : String
  username : String
  firstName : String
  lastName : String
  profilePicture : String
  followers : List ObjId
  following : List ObjId
deriving Repr, DecidableEq

/-- Post document (models/post.model.js as quoted in tutorial chapter 3):
owning user id, content, image URL, likes as an array of User ids, comments
as an array of Comment ids. -/
structure Post where
  _id : ObjId
  user : ObjId
  content : String
  image : String
  likes : List ObjId
  comments : List ObjId
deriving Repr, DecidableEq

/-- Comment document as declared by the comment schema in
src/unnamed/part_012 lines 3-29: the text path is spelt contetn there (and
is required), the post path is optional. -/
structure Comment where
  _id : ObjId
  user : ObjId
  post : Option ObjId
  contetn : String
  likes : List ObjId
deriving Repr, DecidableEq

/-- The closed types enumeration of the notification schema
(src/unnamed/part_012, second schema): follow, like, comment. -/
inductive NotifType
  | follow
  | like
  | comment
deriving Repr, DecidableEq

/-- Notification document (src/unnamed/part_012, second schema).  The JS
fields from and to are Lean keywords and are embedded as fromUser and
toUser. -/
structure Notif where
  fromUser : ObjId
  toUser : ObjId
  types : NotifType
  post : Option ObjId
  comment : Option ObjId
deriving Repr, DecidableEq

/-- The Mongo store: one collection per model plus a fresh-id counter used
when a document is inserted. -/
structure DB where
  users : List User
  posts : List Post
  comments : List Comment
  notifications : List Notif
  nextId : ObjId
deriving Repr, DecidableEq

/-- JavaScript-level failures that escape a handler. -/
inductive JsError
  | typeError (msg : String)
  | objectParameterError (msg : String)
  | validationError (msg : String)
  | duplicateKeyError (msg : String)
deriving Repr, DecidableEq

/-- Outcome of one request handler.  success is res.status(s).json(body) on
a happy path, failure is res.status(s).json with an error message, and
thrown is an uncaught exception, which express-async-handler converts into
a 500 internal-error response. -/
inductive ApiResult (α : Type)
  | success (status : Nat) (body : α)
  | failure (status : Nat) (error : String)
  | thrown (err : JsError)
deriving Repr, DecidableEq

/-- JavaScript String.prototype.trim, modelled on the character list of the
string: leading and trailing whitespace is removed. -/
def jsTrim (s : String) : String :=
  ⟨((s.data.dropWhile Char.isWhitespace).reverse.dropWhile
      Char.isWhitespace).reverse⟩

/-- The local part of an email address: in the source,
email.split at the at-sign, first element.  Equals the characters before
the first at-sign. -/
def emailLocalPart (s : String) : String :=
  ⟨s.data.takeWhile (fun c => c != '@')⟩

/-- User.findOne on the clerkID field. -/
def findUserByClerk (db : DB) (cid : ClerkId) : Option User :=
  db.users.find? (fun u => u.clerkID == cid)

/-- Post.findById. -/
def findPostById (db : DB) (pid : ObjId) : Option Post :=
  db.posts.find? (fun p => p._id == pid)

/-- Comments.findById. -/
def findCommentById (db : DB) (cid : ObjId) : Option Comment :=
  db.comments.find? (fun c => c._id == cid)

/-- GET /api/post/:postId, getSinglePost (post.controller.js lines 28-42):
the handler looks the post up with findById and unconditionally answers 200
with whatever that returned, null included; the function has no not-found
branch. -/
def getSinglePost (db : DB) (postId : ObjId) : ApiResult (Option Post) × DB :=
  (.success 200 (findPostById db postId), db)

/-- POST /api/post/:postId/like, likeAPost (post.controller.js lines
109-142).  Line 110 calls getAuth() without the request object; we grant it
the caller identity here, since the outcome below does not depend on it.
Line 112 omits await, so user is a pending query object: truthy and without
an _id.  The guard at line 114, if (!user || post), therefore reduces to
if (post): when the post EXISTS the handler takes the intended not-found
branch and calls res.statusZ (line 115), which is not a function, throwing
a TypeError; when the post does not exist it falls through to line 117 and
reads .likes of null, also a TypeError.  Every call throws before any
write, so the toggle at lines 119-127, the notification at lines 129-136
and the 200 response at line 137 are unreachable and the store is never
modified. -/
def likeAPost (db : DB) (clerkUserId : ClerkId) (postId : ObjId) :
    ApiResult String × DB :=
  match findPostById db postId with
  | some _ => (.thrown (.typeError "res.statusZ is not a function"), db)
  | none => (.thrown (.typeError "cannot read likes of null"), db)

/-- DELETE /api/post/:postId, deletePost (post.controller.js lines
144-160).  Actor and post are resolved with await; a missing one is
answered with status 400 (line 150) and a non-owner with 403 (line 152).
Line 156 then calls Comment.deleteMany(postId), passing the raw id string
where mongoose requires a filter object such as (post: postId); mongoose
rejects a non-object filter with an ObjectParameterError, the rejection is
uncaught, and line 157, Post.findByIdAndDelete, never runs: neither the
comments nor the post are deleted. -/
def deletePost (db : DB) (clerkUserId : ClerkId) (postId : ObjId) :
    ApiResult String × DB :=
  match findUserByClerk db clerkUserId, findPostById db postId with
  | some u, some p =>
      if p.user != u._id then
        (.failure 403 "You can only delete your own post !", db)
      else
        (.thrown (.objectParameterError
          "Parameter filter to deleteMany must be an object"), db)
  | _, _ => (.failure 400 "  User or post not found !", db)

/-- A document field value handed to a mongoose create call. -/
inductive FieldVal
  | oid (i : ObjId)
  | str (s : String)
deriving Repr, DecidableEq

/-- The schema paths of the comment schema, src/unnamed/part_012 lines
3-29: user, post, contetn (sic) and likes. -/
def commentSchemaPaths : List String := ["user", "post", "contetn", "likes"]

/-- The paths the comment schema marks required: user and contetn. -/
def commentRequiredPaths : List String := ["user", "contetn"]

/-- Mongoose strict mode (the default): document fields that are not schema
paths are dropped before the document is stored. -/
def strictStrip (paths : List String) (doc : List (String × FieldVal)) :
    List (String × FieldVal) :=
  doc.filter (fun kv => paths.contains kv.1)

/-- Mongoose save validation: every required path must be present. -/
def requiredOk (required : List String) (doc : List (String × FieldVal)) :
    Bool :=
  required.all (fun p => (doc.lookup p).isSome)

/-- Comments.create as invoked by createComment (src/unnamed/part_010 lines
36-40): the controller supplies the keys user, content and post.  Strict
mode drops content, which is not a schema path, and save validation then
fails on the required path contetn, so the returned promise rejects with a
ValidationError and no document is inserted. -/
def commentsCreate (nextId : ObjId) (user : ObjId) (content : String)
    (post : ObjId) : Except JsError Comment :=
  let doc : List (String × FieldVal) :=
    [("user", .oid user), ("content", .str content), ("post", .oid post)]
  let stored := strictStrip commentSchemaPaths doc
  if requiredOk commentRequiredPaths stored then
    .ok { _id := nextId
        , user := user
        , post := match stored.lookup "post" with
                  | some (.oid i) => some i
                  | _ => none
        , contetn := match stored.lookup "contetn" with
                     | some (.str s) => s
                     | _ => ""
        , likes := [] }
  else
    .error (.validationError "Path contetn is required")

/-- Posts.findByIdAndUpdate with a push of a comment id onto the comments
array of the matching post. -/
def pushCommentRef (db : DB) (postId : ObjId) (commentId : ObjId) : DB :=
  { db with posts := db.posts.map (fun p =>
      if p._id == postId then { p with comments := p.comments ++ [commentId] }
      else p) }

/-- Posts.findByIdAndUpdate with a pull of a comment id from the comments
array of the matching post; the Mongo pull operator removes every matching
element.  A null post reference matches no post. -/
def pullCommentRef (db : DB) (postId : Option ObjId) (commentId : ObjId) :
    DB :=
  match postId with
  | none => db
  | some pid =>
      { db with posts := db.posts.map (fun p =>
          if p._id == pid then
            { p with comments := p.comments.filter (fun c => c != commentId) }
          else p) }

/-- POST /api/comment/post/:postId, createComment (src/unnamed/part_010
lines 20-61).  Empty or whitespace-only content is rejected with 400 (line
25); an unresolved actor or post with 404 (lines 29-33).  Line 36 then
calls Comments.create, which rejects with a ValidationError (see
commentsCreate), so the push of the comment reference onto the post (lines
43-47), the owner notification guarded by post.user.equals(user._id)
(lines 50-58) and the 201 response are unreachable; the handler answers
500 and writes nothing.  The unreachable continuation is still embedded
faithfully below. -/
def createComment (db : DB) (clerkUserId : ClerkId) (postId : ObjId)
    (content : String) : ApiResult Comment × DB :=
  if jsTrim content == "" then
    (.failure 400 "Comment content is required !", db)
  else
    match findUserByClerk db clerkUserId, findPostById db postId with
    | some u, some p =>
        (match commentsCreate db.nextId u._id (jsTrim content) p._id with
         | .error e => (.thrown e, db)
         | .ok c =>
             let db1 := { db with comments := db.comments ++ [c]
                                , nextId := db.nextId + 1 }
             let db2 := pushCommentRef db1 postId c._id
             let db3 :=
               if p.user != u._id then
                 { db2 with notifications := db2.notifications ++
                     [{ fromUser := u._id, toUser := p.user
                      , types := .comment
                      , post := some p._id, comment := some c._id }] }
               else db2
             (.success 201 c, db3))
    | _, _ => (.failure 404 "Either post or user not found !", db)

/-- DELETE /api/comment/:commentId, deleteComment (src/unnamed/part_010
lines 64-84).  Resolves actor and comment (404 when either is missing,
403 for a non-author), pulls the comment id out of the parent post's
comments array (lines 77-79), then deletes the comment document itself
(line 81, modelled as removing the first document with that id). -/
def deleteComment (db : DB) (clerkUserId : ClerkId) (commentId : ObjId) :
    ApiResult String × DB :=
  match findUserByClerk db clerkUserId, findCommentById db commentId with
  | some u, some c =>
      if c.user != u._id then
        (.failure 403 "You can only delete your own comment", db)
      else
        let db1 := pullCommentRef db c.post c._id
        let db2 := { db1 with
          comments := db1.comments.eraseP (fun k => k._id == c._id) }
        (.success 200 "Comment Deleted Successfull !", db2)
  | _, _ => (.failure 404 "User or comment not found !", db)

/-- GET /api/comment/post/:postId, getComments (src/unnamed/part_010 lines
8-17): Comments.find on the post field; the guard at line 12 tests the
returned array, which is always truthy, so the 404 branch is dead and the
handler answers 200 with the matches. -/
def getComments (db : DB) (postId : ObjId) : ApiResult (List Comment) × DB :=
  (.success 200 (db.comments.filter (fun c => c.post == some postId)), db)

/-- POST /api/user/follow/:targetUserId, followUser (src/unnamed/part_011
lines 61-101).  Line 63 invokes req.params as a function; req.params is a
plain object, so every call throws a TypeError before anything is read or
written, and asyncHandler answers 500.  The whole body — the self-follow
check (line 65), the inverted existence check at line 69 (it answers 404
exactly when the target DOES resolve), the edge updates (lines 72-88) and
the Notifications.create at lines 90-94, which sits outside the if/else
and so would run on both the follow and the unfollow branch — is
unreachable, and the store is never modified. -/
def followUser (db : DB) (clerkUserId : ClerkId) (targetUserId : ObjId) :
    ApiResult String × DB :=
  (.thrown (.typeError "req.params is not a function"), db)

/-- The profile attributes the Clerk collaborator returns for an identity:
first address of emailAddresses, the optional names and the optional
avatar url. -/
structure ClerkUser where
  email : String
  firstName : Option String
  lastName : Option String
  imageUrl : Option String
deriving Repr, DecidableEq

/-- The userData document sysncUser builds from the Clerk profile
(src/unnamed/part_011 lines 36-43): clerkID, email, the names defaulted to
the empty string when Clerk has none, the username derived from the local
part of the email address, and the avatar url. -/
def syncNewUser (db : DB) (clerkUserId : ClerkId)
    (clerk : ClerkId → ClerkUser) : User :=
  let cu := clerk clerkUserId
  { _id := db.nextId
  , clerkID := clerkUserId
  , email := cu.email
  , firstName := cu.firstName.getD ""
  , lastName := cu.lastName.getD ""
  , username := emailLocalPart cu.email
  , profilePicture := cu.imageUrl.getD ""
  , followers := []
  , following := [] }

/-- Mongoose required validator for a String schema path: the value must
be a string of positive length, so the empty string fails. -/
def requiredString (s : String) : Bool := s != ""

/-- Save validation of the user schema (models/user.model.js, quoted in
tutorial chapter 3): clerkID, email, firstName, lastName and username are
all required String paths. -/
def userValidate (u : User) : Bool :=
  requiredString u.clerkID && requiredString u.email &&
  requiredString u.firstName && requiredString u.lastName &&
  requiredString u.username

/-- The unique indexes of the user schema: clerkID, email and username.
Inserting a document that shares one of them with a stored user is
rejected by MongoDB with a duplicate-key error. -/
def userUniqueOk (db : DB) (u : User) : Bool :=
  db.users.all (fun v =>
    v.clerkID != u.clerkID && v.email != u.email && v.username != u.username)

/-- userModel.create: runs save validation against the user schema, then
inserts subject to the unique indexes; either failure rejects the promise
and writes nothing. -/
def userCreate (db : DB) (u : User) : Except JsError DB :=
  if !(userValidate u) then
    .error (.validationError "User validation failed")
  else if !(userUniqueOk db u) then
    .error (.duplicateKeyError "E11000 duplicate key")
  else
    .ok { db with users := db.users ++ [u], nextId := db.nextId + 1 }

/-- POST /api/user/sync, sysncUser (src/unnamed/part_011 lines 30-48).  If
a User with the caller's clerkID exists it is returned unchanged and
nothing is written; otherwise the profile is fetched from Clerk and
userModel.create is called on the userData document (see syncNewUser and
userCreate).  A create rejection — in particular a ValidationError when a
name Clerk did not supply was defaulted to the empty string, which the
required String validator refuses — is uncaught, so asyncHandler answers
500 and no record is written. -/
def sysncUser (db : DB) (clerkUserId : ClerkId) (clerk : ClerkId → ClerkUser) :
    ApiResult User × DB :=
  match findUserByClerk db clerkUserId with
  | some existingUser => (.success 200 existingUser, db)
  | none =>
      let newUser := syncNewUser db clerkUserId clerk
      match userCreate db newUser with
      | .error e => (.thrown e, db)
      | .ok db2 => (.success 200 newUser, db2)

/-- A react-query cache key as built by the usePosts hook. -/
abbrev QueryKey := List String

/-- The two mutations registered by the usePosts hook. -/
inductive PostMutation
  | like
  | del
deriving Repr, DecidableEq

/-- Whether a mutation settled successfully or with an error. -/
inductive MutationOutcome
  | success
  | failure
deriving Repr, DecidableEq

/-- Cache keys invalidated when one of the usePosts mutations settles
(src/mobile/hooks/usePost.ts lines 21-39).  Both the like and the delete
mutation register the same onSuccess handler: invalidate the posts key
and, when the hook was mounted with a username, also the userPosts key for
that username.  react-query runs onSuccess only when the mutation function
resolved, and the hook registers no onError handler, so a failed mutation
invalidates nothing. -/
def usePostsInvalidatedKeys (m : PostMutation) (username : Option String)
    (o : MutationOutcome) : List QueryKey :=
  match o with
  | .failure => []
  | .success =>
      match username with
      | some u => [["posts"], ["userPosts", u]]
      | none => [["posts"]]

/-! ## General lemmas about the handlers -/

/-- likeAPost throws on every input (both branches of the inverted guard
raise a TypeError) and therefore leaves the store unchanged. -/
theorem likeAPost_state (db : DB) (cid : ClerkId) (pid : ObjId) :
    (likeAPost db cid pid).2 = db := by
  unfold likeAPost
  cases findPostById db pid <;> rfl

/-- followUser throws at its second statement and so leaves the store
unchanged. -/
theorem followUser_state (db : DB) (cid : ClerkId) (tid : ObjId) :
    (followUser db cid tid).2 = db := rfl

/-- Comments.create as invoked by the controller always rejects: strict
mode drops the content key and the required schema path contetn is then
missing. -/
theorem commentsCreate_rejects (n u p : ObjId) (s : String) :
    commentsCreate n u s p
      = .error (.validationError "Path contetn is required") := rfl

/-- createComment never modifies the store: every path either rejects the
input before writing or throws inside Comments.create. -/
theorem createComment_state (db : DB) (cid : ClerkId) (pid : ObjId)
    (s : String) : (createComment db cid pid s).2 = db := by
  unfold createComment
  split
  · rfl
  · split
    · rw [commentsCreate_rejects]
    · rfl

/-- Unfolding of sysncUser when no stored user matches the identity and
the synced document passes the schema validation and the unique
indexes. -/
theorem sysncUser_create (db : DB) (cid : ClerkId)
    (clerk : ClerkId → ClerkUser) (hfind : findUserByClerk db cid = none)
    (hval : userValidate (syncNewUser db cid clerk) = true)
    (huniq : userUniqueOk db (syncNewUser db cid clerk) = true) :
    sysncUser db cid clerk =
      (.success 200 (syncNewUser db cid clerk),
       { db with users := db.users ++ [syncNewUser db cid clerk]
               , nextId := db.nextId + 1 }) := by
  simp [sysncUser, userCreate, hfind, hval, huniq]

/-- Unfolding of sysncUser when a stored user matches the identity: it is
returned unchanged and nothing is written. -/
theorem sysncUser_existing (db : DB) (cid : ClerkId)
    (clerk : ClerkId → ClerkUser) (u : User)
    (hfind : findUserByClerk db cid = some u) :
    sysncUser db cid clerk = (.success 200 u, db) := by
  unfold sysncUser
  rw [hfind]

/-! ## Sample stores used to evaluate the handlers at concrete inputs -/

/-- A user record with the given id, clerk key and username, and no
follower or following edges. -/
def mkUser (i : ObjId) (cid : ClerkId) (uname : String) : User :=
  { _id := i
  , clerkID := cid
  , email := uname ++ "@mail.com"
  , username := uname
  , firstName := ""
  , lastName := ""
  , profilePicture := ""
  , followers := []
  , following := [] }

/-- Store for the like round-trip claim: actor ann (user 1) and a post of
bob (user 2) with an empty likes array. -/
def dbLike : DB :=
  { users := [mkUser 1 "clerk_a" "ann", mkUser 2 "clerk_b" "bob"]
  , posts := [{ _id := 10, user := 2, content := "hello world", image := ""
              , likes := [], comments := [] }]
  , comments := [], notifications := [], nextId := 100 }

/-- Store for the like not-found claim: actor cat (user 3) and a post of
dan (user 4). -/
def dbLike2 : DB :=
  { users := [mkUser 3 "clerk_c" "cat", mkUser 4 "clerk_d" "dan"]
  , posts := [{ _id := 30, user := 4, content := "x", image := ""
              , likes := [], comments := [] }]
  , comments := [], notifications := [], nextId := 100 }

/-- Store for the follow edge claim: two users, no edges. -/
def dbFollow : DB :=
  { users := [mkUser 5 "clerk_e" "eva", mkUser 6 "clerk_f" "fred"]
  , posts := [], comments := [], notifications := [], nextId := 100 }

/-- Store for the follow notification claim: two users, no edges and no
notifications. -/
def dbFollow2 : DB :=
  { users := [mkUser 7 "clerk_g" "gus", mkUser 8 "clerk_h" "hal"]
  , posts := [], comments := [], notifications := [], nextId := 100 }

/-- A stored comment on post 11. -/
def commentOnP : Comment :=
  { _id := 20, user := 9, post := some 11, contetn := "nice", likes := [] }

/-- Store for the delete-cascade claim: owner oli (user 9), their post 11,
and one comment (id 20) referencing that post. -/
def dbDel : DB :=
  { users := [mkUser 9 "clerk_o" "oli"]
  , posts := [{ _id := 11, user := 9, content := "p", image := ""
              , likes := [], comments := [20] }]
  , comments := [commentOnP], notifications := [], nextId := 50 }

/-- Store for the comment back-reference claim: commenter uma (user 13)
and a post of wyn (user 14) with an empty comments array. -/
def dbCmt : DB :=
  { users := [mkUser 13 "clerk_u" "uma", mkUser 14 "clerk_w" "wyn"]
  , posts := [{ _id := 40, user := 14, content := "q", image := ""
              , likes := [], comments := [] }]
  , comments := [], notifications := [], nextId := 60 }

/-- Empty store used in the sync idempotence claim. -/
def dbSyncW : DB :=
  { users := [], posts := [], comments := [], notifications := [], nextId := 7 }

/-- Clerk collaborator whose profile carries no last name: the controller
defaults lastName to the empty string, which the user schema's required
String validator rejects. -/
def clerkW : ClerkId → ClerkUser := fun _ =>
  { email := "ria@mail.com", firstName := some "Ria", lastName := none
  , imageUrl := none }

/-- Clerk collaborator with a full profile, used to witness the amended
sync idempotence claim. -/
def clerkValidW : ClerkId → ClerkUser := fun _ =>
  { email := "ria@mail.com", firstName := some "Ria", lastName := some "Shaw"
  , imageUrl := none }

/-- Empty store used to witness the get-single-post claim. -/
def dbGetW : DB :=
  { users := [], posts := [], comments := [], notifications := [], nextId := 1 }

/-! ## Claim theorems -/

/-- C1: the claim says the first like-toggle call flips the actor's
membership in P.likes and the second flips it back.  On the code the first
call already fails: with actor ann and post 10 both resolving, likeAPost
throws a TypeError (res.statusZ is not a function) and answers 500, and
neither the first nor the second call modifies the store, so no membership
is ever flipped. -/
theorem likeAPost_first_call_never_flips :
    (likeAPost dbLike "clerk_a" 10).1
        = .thrown (.typeError "res.statusZ is not a function") ∧
    (likeAPost dbLike "clerk_a" 10).2 = dbLike ∧
    (likeAPost (likeAPost dbLike "clerk_a" 10).2 "clerk_a" 10).2 = dbLike :=
  ⟨rfl, rfl, rfl⟩

/-- C2: the claim says the toggle answers NotFoundError exactly when actor
or post does not resolve, and otherwise flips membership.  On the code,
when both resolve (post 30) the inverted guard sends the request into the
not-found branch whose response call is misspelt, so it throws and answers
500 without flipping anything; when the post does not resolve (id 999) it
falls through and dereferences null, again answering 500 rather than 404.
No input produces a 404 and no input flips membership. -/
theorem likeAPost_notfound_polarity_broken :
    (likeAPost dbLike2 "clerk_c" 30).1
        = .thrown (.typeError "res.statusZ is not a function") ∧
    (likeAPost dbLike2 "clerk_c" 999).1
        = .thrown (.typeError "cannot read likes of null") ∧
    (likeAPost dbLike2 "clerk_c" 30).2 = dbLike2 :=
  ⟨rfl, rfl, rfl⟩

/-- C3: the claim says a follow transition puts the actor into
T.followers and T into A.following together.  On the code followUser
throws a TypeError at its second statement (req.params invoked as a
function) on every request, answers 500, and updates neither edge set:
with actor eva and target fred both resolving, the store is unchanged. -/
theorem followUser_updates_no_edge :
    (followUser dbFollow "clerk_e" 6).1
        = .thrown (.typeError "req.params is not a function") ∧
    (followUser dbFollow "clerk_e" 6).2 = dbFollow :=
  ⟨rfl, rfl⟩

/-- C4: the claim says every follow transition creates a follow
Notification from actor to target and an unfollow creates none.  On the
code no transition is ever reached: followUser throws before its body
runs, so a follow attempt creates no Notification at all (and the
Notifications.create in the source sits outside the if/else, so even with
the parameter and polarity slips repaired it would also fire on the
unfollow branch). -/
theorem followUser_creates_no_follow_notification :
    (followUser dbFollow2 "clerk_g" 8).2.notifications
        = dbFollow2.notifications ∧
    (followUser dbFollow2 "clerk_g" 8).1
        = .thrown (.typeError "req.params is not a function") :=
  ⟨rfl, rfl⟩

/-- C5: the claim says a successful owner delete removes every comment of
the post and then the post.  On the code the cascade never happens: with
owner oli deleting their own post 11, which has comment 20,
Comment.deleteMany is handed the raw post id instead of a filter object,
mongoose rejects it, the handler answers 500, the store is unchanged, and
a subsequent list-comments query for post 11 still returns the comment. -/
theorem deletePost_cascade_broken :
    (deletePost dbDel "clerk_o" 11).1
        = .thrown (.objectParameterError
            "Parameter filter to deleteMany must be an object") ∧
    (deletePost dbDel "clerk_o" 11).2 = dbDel ∧
    (getComments (deletePost dbDel "clerk_o" 11).2 11).1
        = .success 200 [commentOnP] :=
  ⟨rfl, rfl, rfl⟩

/-- C6: the claim says a successfully created comment C has C.post = P and
appears in P.comments exactly once.  On the code no comment is ever
successfully created: with commenter uma and post 40 both resolving and
the non-empty content hello, Comments.create rejects with a
ValidationError because the schema spells its required text path contetn
while the controller supplies content, so the handler answers 500 and the
post's comments array is never touched. -/
theorem createComment_never_succeeds :
    (createComment dbCmt "clerk_u" 40 "hello").1
        = .thrown (.validationError "Path contetn is required") ∧
    (createComment dbCmt "clerk_u" 40 "hello").2 = dbCmt :=
  ⟨rfl, rfl⟩

/-- C7: no Notification record created by the like toggle, the follow
toggle or comment creation has its from field equal to its to field: the
notifications a call appends to the store (none, as it happens, since each
of the three operations fails before its Notifications.create) all satisfy
from different from to. -/
theorem no_self_notification (db : DB) (cid : ClerkId) (pid tid : ObjId)
    (s : String) :
    ((likeAPost db cid pid).2.notifications.drop
        db.notifications.length).all (fun n => n.fromUser != n.toUser)
      = true ∧
    ((followUser db cid tid).2.notifications.drop
        db.notifications.length).all (fun n => n.fromUser != n.toUser)
      = true ∧
    ((createComment db cid pid s).2.notifications.drop
        db.notifications.length).all (fun n => n.fromUser != n.toUser)
      = true := by
  refine ⟨?_, ?_, ?_⟩
  · rw [likeAPost_state, List.drop_length]; rfl
  · rw [followUser_state, List.drop_length]; rfl
  · rw [createComment_state, List.drop_length]; rfl

/-- C8 counterexample: the claim as stated fails on the code.  For the
identity clerk_r whose Clerk profile carries no last name, sysncUser
defaults lastName to the empty string, the user schema's required String
validator rejects the document, userModel.create rejects, and both calls
answer 500: no User record at all is produced — not exactly one — and the
second call returns no record. -/
theorem sysncUser_twice_creates_nothing :
    (sysncUser dbSyncW "clerk_r" clerkW).1
        = .thrown (.validationError "User validation failed") ∧
    (sysncUser (sysncUser dbSyncW "clerk_r" clerkW).2 "clerk_r" clerkW).1
        = .thrown (.validationError "User validation failed") ∧
    ((sysncUser (sysncUser dbSyncW "clerk_r" clerkW).2 "clerk_r"
        clerkW).2.users.countP (fun u => u.clerkID == "clerk_r")) = 0 :=
  ⟨rfl, rfl, rfl⟩

/-- C8 (amended): sync-on-login is idempotent whenever the synced document
is storable — the profile passes the user schema (non-empty first and last
name from Clerk and a non-empty username derived from the email) and no
stored user collides on the unique clerkID, email or username keys.  Then
the first call creates exactly one record for the identity, and the second
call performs no write and returns the identical response. -/
theorem sysncUser_sync_twice (db : DB) (cid : ClerkId)
    (clerk : ClerkId → ClerkUser)
    (hval : userValidate (syncNewUser db cid clerk) = true)
    (huniq : userUniqueOk db (syncNewUser db cid clerk) = true) :
    (sysncUser (sysncUser db cid clerk).2 cid clerk).2
        = (sysncUser db cid clerk).2 ∧
    (sysncUser (sysncUser db cid clerk).2 cid clerk).1
        = (sysncUser db cid clerk).1 ∧
    (sysncUser db cid clerk).2.users.countP (fun u => u.clerkID == cid)
        = 1 := by
  have h : ∀ u ∈ db.users, u.clerkID ≠ cid := by
    have huniq2 := huniq
    unfold userUniqueOk at huniq2
    rw [List.all_eq_true] at huniq2
    intro u hu
    have hx := huniq2 u hu
    simp only [Bool.and_eq_true, bne_iff_ne, ne_eq] at hx
    exact hx.1.1
  have hfind : findUserByClerk db cid = none := by
    unfold findUserByClerk
    exact List.find?_eq_none.mpr (fun u hu => by simpa using h u hu)
  have h1 := sysncUser_create db cid clerk hfind hval huniq
  have hfind2 : findUserByClerk (sysncUser db cid clerk).2 cid
      = some (syncNewUser db cid clerk) := by
    rw [h1]
    unfold findUserByClerk
    simp only [List.find?_append]
    unfold findUserByClerk at hfind
    rw [hfind]
    simp [syncNewUser, List.find?]
  have h2 := sysncUser_existing _ cid clerk _ hfind2
  refine ⟨?_, ?_, ?_⟩
  · rw [h2]
  · rw [h2, h1]
  · rw [h1]
    simp only [List.countP_append]
    have hz : db.users.countP (fun u => u.clerkID == cid) = 0 :=
      List.countP_eq_zero.mpr (fun u hu => by simpa using h u hu)
    rw [hz]
    simp [syncNewUser, List.countP, List.countP.go]

/-- Witness for the amended C8 at a concrete input: empty store, identity
clerk_r and a Clerk profile carrying both names. -/
theorem sysncUser_sync_twice_witness :
    (sysncUser (sysncUser dbSyncW "clerk_r" clerkValidW).2 "clerk_r"
        clerkValidW).2 = (sysncUser dbSyncW "clerk_r" clerkValidW).2 ∧
    (sysncUser (sysncUser dbSyncW "clerk_r" clerkValidW).2 "clerk_r"
        clerkValidW).1 = (sysncUser dbSyncW "clerk_r" clerkValidW).1 ∧
    (sysncUser dbSyncW "clerk_r" clerkValidW).2.users.countP
        (fun u => u.clerkID == "clerk_r") = 1 :=
  sysncUser_sync_twice dbSyncW "clerk_r" clerkValidW rfl rfl

/-- C9: the usePosts hook invalidates the posts key — and the userPosts
key of the viewed username when there is one — exactly when the like or
delete-post mutation settles successfully, and invalidates nothing on a
failed mutation. -/
theorem usePosts_invalidation_iff_success (m : PostMutation)
    (username : Option String) :
    usePostsInvalidatedKeys m username .failure = [] ∧
    usePostsInvalidatedKeys m username .success =
      [["posts"]] ++ (match username with
                      | some u => [["userPosts", u]]
                      | none => []) ∧
    (usePostsInvalidatedKeys m username .success).isEmpty = false := by
  cases username <;> simp [usePostsInvalidatedKeys]

/-- C10: reading a single post by an identifier that resolves to no post
answers 200 with a null payload, and every input whatsoever is answered
with a 200 whose payload is exactly the findById result — the handler has
no not-found branch. -/
theorem getSinglePost_missing_is_success_null (db : DB) (pid : ObjId)
    (h : findPostById db pid = none) :
    (getSinglePost db pid).1 = .success 200 none ∧
    ∀ (db2 : DB) (pid2 : ObjId),
      (getSinglePost db2 pid2).1 = .success 200 (findPostById db2 pid2) :=
  ⟨by simp [getSinglePost, h], fun _ _ => rfl⟩

/-- Witness for C10 at a concrete input: the empty store and post id 5. -/
theorem getSinglePost_missing_witness :
    (getSinglePost dbGetW 5).1 = .success 200 none ∧
    ∀ (db2 : DB) (pid2 : ObjId),
      (getSinglePost db2 pid2).1 = .success 200 (findPostById db2 pid2) :=
  getSinglePost_missing_is_success_null dbGetW 5 rfl

end SC
